import Mathlib

/-!
Shallow embedding of `src/cryptofeed/exchange/binance_futures.py`
(class `BinanceFutures`): the order-book consistency engine
(`_check_update_id`), the open-interest normalizer (`_open_interest`),
the streaming-address builder (`_address`) and the message dispatcher
(`message_handler`), together with theorems settling the spec claims.

Per-symbol mutable state (the Python dicts `self.last_update_id`,
`self.forced`, `self.open_interest`) is modelled as total functions from
symbol strings; method calls are modelled as pure functions returning a
result record carrying the new state, the warnings logged through
`LOG.warning`, and a count of resync signals.
-/

/-- Modelled from the spec: the exchange identifier constant `BINANCE_FUTURES`
is imported from `cryptofeed.defines`, which is not under src/; the spec calls
it the exchange identifier, a fixed string distinct from any symbol name. -/
def BINANCE_FUTURES : String := "BINANCE_FUTURES"

/-- Modelled from the spec: the channel-name constant `OPEN_INTEREST` from
`cryptofeed.defines` (not under src/); `connect` in src compares the same
channel against the literal string below. -/
def OPEN_INTEREST : String := "open_interest"

/-- Modelled from the spec: the channel-name constant `TICKER` from
`cryptofeed.defines` (not under src/): the ticker channel name. -/
def TICKER : String := "ticker"

/-- One `LOG.warning(fmt, *args)` call: the format string and the
interpolated arguments, kept separate so "the warning names X" is the
decidable statement `X ∈ args`. -/
structure LogWarning where
  fmt : String
  args : List String
deriving DecidableEq

/-- The per-symbol mutable state of a `BinanceFutures` instance:
`last_update_id` and `forced` are the Python dicts of the same names
(`forced[pair] = true` means the symbol is Synced), `open_interest` is the
open-interest dedup cache, and `book_valid` records whether a locally held
book for the symbol is still valid (invalidated by a resync). -/
structure BinanceFuturesState where
  last_update_id : String → Nat
  forced : String → Bool
  book_valid : String → Bool
  open_interest : String → Option String

/-- A depth-diff payload: the fields of the decoded `msg` dict that
`_check_update_id` and `message_handler` read. `e` is the optional
event-type tag (`msg.get('e')`); `U`, `u`, `pu` are the update-id fields. -/
structure DiffMsg where
  e : Option String
  U : Nat
  u : Nat
  pu : Nat
deriving DecidableEq

/-- Modelled from the spec: `_reset` is inherited from the parent class
`Binance`, which is not under src/. Per the spec's resync action it
invalidates the locally held book for this symbol and resets the symbol's
sync state so the next accepted diff must again satisfy the Unsynced-state
bracketing condition (`lastUpdateId` is re-seeded by the snapshot-fetch
collaborator, outside this core). -/
def _reset (st : BinanceFuturesState) (pair : String) : BinanceFuturesState :=
  { st with
    forced := fun p => if p = pair then false else st.forced p,
    book_valid := fun p => if p = pair then false else st.book_valid p }

/-- The warning logged in `_check_update_id`'s resync branch:
`LOG.warning("%s: Missing book update detected, resetting book", self.id)`. -/
def missingUpdateWarning : LogWarning :=
  ⟨"%s: Missing book update detected, resetting book", [BINANCE_FUTURES]⟩

/-- The outcome of one `_check_update_id` call: the two returned booleans
(`skip_update`, and the local `forced = not self.forced[pair]`, i.e. whether
the symbol was Unsynced at call time), the state after the call, the
warnings logged, and how many resyncs (`self._reset()` calls) were
signaled. -/
structure CheckResult where
  skip_update : Bool
  forced : Bool
  state : BinanceFuturesState
  warnings : List LogWarning
  resyncs : Nat

/-- `BinanceFutures._check_update_id(self, pair, msg)`. -/
def _check_update_id (st : BinanceFuturesState) (pair : String) (msg : DiffMsg) :
    CheckResult :=
  let forced := ! st.forced pair
  if forced = true ∧ msg.u < st.last_update_id pair then
    { skip_update := true, forced := forced, state := st,
      warnings := [], resyncs := 0 }
  else if forced = true ∧ msg.U ≤ st.last_update_id pair ∧
      st.last_update_id pair ≤ msg.u then
    { skip_update := false, forced := forced,
      state := { st with
        last_update_id := fun p => if p = pair then msg.u else st.last_update_id p,
        forced := fun p => if p = pair then true else st.forced p },
      warnings := [], resyncs := 0 }
  else if forced = false ∧ st.last_update_id pair = msg.pu then
    { skip_update := false, forced := forced,
      state := { st with
        last_update_id := fun p => if p = pair then msg.u else st.last_update_id p },
      warnings := [], resyncs := 0 }
  else
    { skip_update := true, forced := forced, state := _reset st pair,
      warnings := [missingUpdateWarning], resyncs := 1 }

/-- The outcome of one `_open_interest` call: whether the callback was
invoked (an open-interest event emitted) and the state after the call. -/
structure OIResult where
  emitted : Bool
  state : BinanceFuturesState

/-- `BinanceFutures._open_interest(self, msg, timestamp)`: emit iff the
received value differs from `self.open_interest.get(pair, None)`, then
cache it. -/
def _open_interest (st : BinanceFuturesState) (pair : String) (oi : String) :
    OIResult :=
  if some oi ≠ st.open_interest pair then
    { emitted := true,
      state := { st with
        open_interest := fun p => if p = pair then some oi else st.open_interest p } }
  else
    { emitted := false, state := st }

/-- The websocket endpoint set in `BinanceFutures.__init__`. -/
def ws_endpoint : String := "wss://fstream.binance.com"

/-- One stream name as composed inside `_address`'s inner loop: the
lower-cased pair, `@bookTicker` for the ticker channel or `@<chan>`
otherwise, with the trailing `/` separator appended by the loop. -/
def stream_name (chan pair : String) : String :=
  let pairL := pair.toLower
  if chan = TICKER then pairL ++ "@bookTicker/"
  else pairL ++ "@" ++ chan ++ "/"

/-- The (channel, symbols) iteration of `_address`:
`self.channels if not self.subscription else self.subscription`, and for
each channel `self.symbols if not self.subscription else
self.subscription[chan]`. A subscription dict is modelled as an association
list; `none` models an unset/empty subscription (falsy in Python). -/
def addressEntries (channels symbols : List String)
    (subscription : Option (List (String × List String))) :
    List (String × List String) :=
  match subscription with
  | none => channels.map (fun c => (c, symbols))
  | some sub => sub

/-- The address-composition fold of `_address` over the iterated
(channel, symbols) entries, starting from accumulator `acc`: skip the
open-interest channel, append one stream name per pair. -/
def addressFold (entries : List (String × List String)) (acc : String) : String :=
  entries.foldl
    (fun a cs =>
      if cs.1 = OPEN_INTEREST then a
      else cs.2.foldl (fun b p => b ++ stream_name cs.1 p) a)
    acc

/-- `BinanceFutures._address(self)` on given entries: compose the address,
return `None` when no stream was appended, else drop the trailing `/`. -/
def _addressOf (entries : List (String × List String)) : Option String :=
  let base := ws_endpoint ++ "/stream?streams="
  let address := addressFold entries base
  if address = base then none else some (address.dropRight 1)

/-- `BinanceFutures._address(self)`. -/
def _address (channels symbols : List String)
    (subscription : Option (List (String × List String))) : Option String :=
  _addressOf (addressEntries channels symbols subscription)

/-- The list of stream names `_address` appends, in order: every pair of
every non-open-interest entry. Specification-side companion of
`addressFold`, related to it by `addressFold_eq_joinAll`. -/
def streamList (entries : List (String × List String)) : List String :=
  (entries.filter (fun cs => !(cs.1 == OPEN_INTEREST))).flatMap
    (fun cs => cs.2.map (stream_name cs.1))

/-- Concatenation of a list of strings. -/
def joinAll : List String → String
  | [] => ""
  | s :: rest => s ++ joinAll rest

/-- Which normalizer `message_handler` invoked on a message. -/
inductive NormalizerCall where
  | ticker
  | book
  | trade
  | liquidations
  | funding
  | candle
  | openInterest
deriving DecidableEq

/-- The outcome of one successful `message_handler` call: which normalizer
fired (if any), the warnings logged, and the state after the call. -/
structure HandlerResult where
  handled : Option NormalizerCall
  warnings : List LogWarning
  state : BinanceFuturesState

/-- A decoded wire message as classified by `message_handler`: either a
polled open-interest response (a dict containing the key `openInterest`,
no envelope) or a combined-stream envelope
`{"stream": <streamName>, "data": <payload>}`. -/
inductive WireMsg where
  | oi (symbol : String) (openInterest : String) (time : Nat)
  | stream (streamName : String) (data : DiffMsg)

/-- Helper for `split1`: scan the character list for the first occurrence
of `sep`, returning the characters before it and, when found, the
characters after it. -/
def splitOnceAux (sep : Char) : List Char → (List Char × Option (List Char))
  | [] => ([], none)
  | c :: cs =>
    if c = sep then ([], some cs)
    else
      let r := splitOnceAux sep cs
      (c :: r.1, r.2)

/-- Python's `s.split(sep, 1)` for a one-character separator: the whole
string as a one-element list when `sep` is absent, else the parts before
and after the first occurrence. -/
def split1 (s : String) (sep : Char) : List String :=
  match splitOnceAux sep s.data with
  | (before, none) => [String.mk before]
  | (before, some after) => [String.mk before, String.mk after]

/-- A plain rendering of a diff payload, standing in for the `%s`
interpolation of `msg` in the unexpected-message warning. -/
def dataRepr (d : DiffMsg) : String :=
  "e=" ++ (match d.e with | none => "None" | some t => t) ++
  " U=" ++ toString d.U ++ " u=" ++ toString d.u ++ " pu=" ++ toString d.pu

/-- The warning logged by `message_handler`'s fallback branch:
`LOG.warning("%s: Unexpected message received: %s", self.id, msg)`. -/
def unexpectedWarning (d : DiffMsg) : LogWarning :=
  ⟨"%s: Unexpected message received: %s", [BINANCE_FUTURES, dataRepr d]⟩

/-- The event-type dispatch of `message_handler` on the unwrapped payload,
after the pair has been extracted from the stream name. Mirrors the Python
`elif` chain: the first five arms test `msg.get('e')`, the sixth re-indexes
`msg['e']` (a `KeyError` when the key is absent), the final `else` warns and
drops. The depth-diff arm routes through the consistency engine; per the
spec (§4.3) the book normalizer `_book` (defined in the parent `Binance`
class, not under src/) then forwards the diff, which is modelled here as
the book normalizer firing with the engine's state and warnings. -/
def dispatchStream (st : BinanceFuturesState) (pair : String) (data : DiffMsg) :
    Except String HandlerResult :=
  if data.e = some "bookTicker" then
    .ok { handled := some .ticker, warnings := [], state := st }
  else if data.e = some "depthUpdate" then
    let r := _check_update_id st pair data
    .ok { handled := some .book, warnings := r.warnings, state := r.state }
  else if data.e = some "aggTrade" then
    .ok { handled := some .trade, warnings := [], state := st }
  else if data.e = some "forceOrder" then
    .ok { handled := some .liquidations, warnings := [], state := st }
  else if data.e = some "markPriceUpdate" then
    .ok { handled := some .funding, warnings := [], state := st }
  else
    match data.e with
    | none => .error "KeyError: 'e'"
    | some t =>
      if t = "kline" then
        .ok { handled := some .candle, warnings := [], state := st }
      else
        .ok { handled := none, warnings := [unexpectedWarning data], state := st }

/-- `BinanceFutures.message_handler(self, msg, conn, timestamp)`: route a
polled open-interest response to `_open_interest`; otherwise unwrap the
combined-stream envelope, take the pair as the stream name up to the first
`@` upper-cased (`msg['stream'].split('@', 1)` raises `ValueError` when
`@` is absent), and dispatch the payload by its event-type tag. An
`Except.error` models an exception escaping the handler: nothing was
invoked, logged or mutated. -/
def message_handler (st : BinanceFuturesState) (msg : WireMsg) :
    Except String HandlerResult :=
  match msg with
  | .oi symbol openInterestVal _time =>
    let r := _open_interest st symbol openInterestVal
    .ok { handled := if r.emitted then some .openInterest else none,
          warnings := [], state := r.state }
  | .stream streamName data =>
    match split1 streamName '@' with
    | [] => .error "ValueError: not enough values to unpack"
    | [_] => .error "ValueError: not enough values to unpack"
    | p :: _ :: _ => dispatchStream st p.toUpper data

/-! ### Concrete fixtures used by witnesses and counterexamples -/

/-- A state in which `BTCUSDT` is Unsynced with `last_update_id = 100`
(the seed of the spec's worked example) and `ETHUSDT` is Synced at 50. -/
def stUnsyncedEx : BinanceFuturesState :=
  { last_update_id := fun p => if p = "BTCUSDT" then 100 else 50,
    forced := fun p => p == "ETHUSDT",
    book_valid := fun _ => true,
    open_interest := fun _ => none }

/-- A state in which `BTCUSDT` is Synced with `last_update_id = 103` and
`ETHUSDT` is Synced at 50. -/
def stSyncedEx : BinanceFuturesState :=
  { last_update_id := fun p => if p = "BTCUSDT" then 103 else 50,
    forced := fun _ => true,
    book_valid := fun _ => true,
    open_interest := fun _ => none }

/-! ### Claims C1-C4: the `_check_update_id` transition table -/

/-- C1: while Unsynced, a diff whose range brackets the snapshot boundary
(`U ≤ lastUpdateId ≤ u`) is applied (`skip = false`), sets `lastUpdateId`
to `u`, and moves the symbol to Synced. -/
theorem check_update_id_unsynced_bracket
    (st : BinanceFuturesState) (pair : String) (msg : DiffMsg)
    (hf : st.forced pair = false)
    (hU : msg.U ≤ st.last_update_id pair)
    (hu : st.last_update_id pair ≤ msg.u) :
    (_check_update_id st pair msg).skip_update = false ∧
    (_check_update_id st pair msg).state.last_update_id pair = msg.u ∧
    (_check_update_id st pair msg).state.forced pair = true := by
  simp [_check_update_id, hf, hU, hu, not_lt.mpr hu]

/-- Witness for C1: the spec's worked example, diff A (`U = 95`, `u = 101`)
received while `BTCUSDT` is Unsynced at `lastUpdateId = 100`. -/
theorem check_update_id_unsynced_bracket_witness :
    stUnsyncedEx.forced "BTCUSDT" = false ∧
    (95 : Nat) ≤ stUnsyncedEx.last_update_id "BTCUSDT" ∧
    stUnsyncedEx.last_update_id "BTCUSDT" ≤ 101 ∧
    ((_check_update_id stUnsyncedEx "BTCUSDT" ⟨some "depthUpdate", 95, 101, 0⟩).skip_update = false ∧
     (_check_update_id stUnsyncedEx "BTCUSDT" ⟨some "depthUpdate", 95, 101, 0⟩).state.last_update_id "BTCUSDT" = 101 ∧
     (_check_update_id stUnsyncedEx "BTCUSDT" ⟨some "depthUpdate", 95, 101, 0⟩).state.forced "BTCUSDT" = true) :=
  ⟨by decide, by decide, by decide,
   check_update_id_unsynced_bracket stUnsyncedEx "BTCUSDT"
     ⟨some "depthUpdate", 95, 101, 0⟩ (by decide) (by decide) (by decide)⟩

/-- C2: while Synced, a diff whose `pu` equals the current `lastUpdateId`
is applied (`skip = false`), updates `lastUpdateId` to `u`, and the symbol
remains Synced. -/
theorem check_update_id_synced_continuous
    (st : BinanceFuturesState) (pair : String) (msg : DiffMsg)
    (hf : st.forced pair = true)
    (hpu : msg.pu = st.last_update_id pair) :
    (_check_update_id st pair msg).skip_update = false ∧
    (_check_update_id st pair msg).state.last_update_id pair = msg.u ∧
    (_check_update_id st pair msg).state.forced pair = true := by
  simp [_check_update_id, hf, hpu]

/-- Witness for C2: the spec's worked example, diff B (`u = 103`,
`pu = 101`) received while `BTCUSDT` is Synced at `lastUpdateId = 101`. -/
theorem check_update_id_synced_continuous_witness :
    stSyncedEx.forced "BTCUSDT" = true ∧
    (103 : Nat) = stSyncedEx.last_update_id "BTCUSDT" ∧
    ((_check_update_id stSyncedEx "BTCUSDT" ⟨some "depthUpdate", 104, 110, 103⟩).skip_update = false ∧
     (_check_update_id stSyncedEx "BTCUSDT" ⟨some "depthUpdate", 104, 110, 103⟩).state.last_update_id "BTCUSDT" = 110 ∧
     (_check_update_id stSyncedEx "BTCUSDT" ⟨some "depthUpdate", 104, 110, 103⟩).state.forced "BTCUSDT" = true) :=
  ⟨by decide, by decide,
   check_update_id_synced_continuous stSyncedEx "BTCUSDT"
     ⟨some "depthUpdate", 104, 110, 103⟩ (by decide) (by decide)⟩

/-- C3: while Synced, a diff whose `pu` differs from the current
`lastUpdateId` is skipped, moves the symbol to Unsynced, and signals
exactly one resync: one book invalidation and one diagnostic warning. -/
theorem check_update_id_synced_gap
    (st : BinanceFuturesState) (pair : String) (msg : DiffMsg)
    (hf : st.forced pair = true)
    (hpu : msg.pu ≠ st.last_update_id pair) :
    (_check_update_id st pair msg).skip_update = true ∧
    (_check_update_id st pair msg).state.forced pair = false ∧
    (_check_update_id st pair msg).resyncs = 1 ∧
    (_check_update_id st pair msg).state.book_valid pair = false ∧
    (_check_update_id st pair msg).warnings.length = 1 := by
  simp [_check_update_id, _reset, hf, hpu.symm]

/-- Witness for C3: the spec's worked example, diff C (`pu = 104`) received
while `BTCUSDT` is Synced at `lastUpdateId = 103`. -/
theorem check_update_id_synced_gap_witness :
    stSyncedEx.forced "BTCUSDT" = true ∧
    (104 : Nat) ≠ stSyncedEx.last_update_id "BTCUSDT" ∧
    ((_check_update_id stSyncedEx "BTCUSDT" ⟨some "depthUpdate", 105, 106, 104⟩).skip_update = true ∧
     (_check_update_id stSyncedEx "BTCUSDT" ⟨some "depthUpdate", 105, 106, 104⟩).state.forced "BTCUSDT" = false ∧
     (_check_update_id stSyncedEx "BTCUSDT" ⟨some "depthUpdate", 105, 106, 104⟩).resyncs = 1 ∧
     (_check_update_id stSyncedEx "BTCUSDT" ⟨some "depthUpdate", 105, 106, 104⟩).state.book_valid "BTCUSDT" = false ∧
     (_check_update_id stSyncedEx "BTCUSDT" ⟨some "depthUpdate", 105, 106, 104⟩).warnings.length = 1) :=
  ⟨by decide, by decide,
   check_update_id_synced_gap stSyncedEx "BTCUSDT"
     ⟨some "depthUpdate", 105, 106, 104⟩ (by decide) (by decide)⟩

/-- C4: while Unsynced, a stale diff (`u < lastUpdateId`) is skipped and
the state is left entirely unchanged — no resync, no warning. -/
theorem check_update_id_unsynced_stale
    (st : BinanceFuturesState) (pair : String) (msg : DiffMsg)
    (hf : st.forced pair = false)
    (hu : msg.u < st.last_update_id pair) :
    (_check_update_id st pair msg).skip_update = true ∧
    (_check_update_id st pair msg).state = st ∧
    (_check_update_id st pair msg).resyncs = 0 ∧
    (_check_update_id st pair msg).warnings = [] := by
  simp [_check_update_id, hf, hu]

/-- Witness for C4: a stale diff (`u = 90 < 100`) received while `BTCUSDT`
is Unsynced at `lastUpdateId = 100`. -/
theorem check_update_id_unsynced_stale_witness :
    stUnsyncedEx.forced "BTCUSDT" = false ∧
    (90 : Nat) < stUnsyncedEx.last_update_id "BTCUSDT" ∧
    ((_check_update_id stUnsyncedEx "BTCUSDT" ⟨some "depthUpdate", 80, 90, 0⟩).skip_update = true ∧
     (_check_update_id stUnsyncedEx "BTCUSDT" ⟨some "depthUpdate", 80, 90, 0⟩).state = stUnsyncedEx ∧
     (_check_update_id stUnsyncedEx "BTCUSDT" ⟨some "depthUpdate", 80, 90, 0⟩).resyncs = 0 ∧
     (_check_update_id stUnsyncedEx "BTCUSDT" ⟨some "depthUpdate", 80, 90, 0⟩).warnings = []) :=
  ⟨by decide, by decide,
   check_update_id_unsynced_stale stUnsyncedEx "BTCUSDT"
     ⟨some "depthUpdate", 80, 90, 0⟩ (by decide) (by decide)⟩

/-! ### Claim C5: effect of a resync (frame + warning contents) -/

/-- Counterexample for C5 as stated: on the
gap diff C of the spec's worked example, the single warning emitted by the
resync interpolates only the exchange identifier `BINANCE_FUTURES` — the
affected symbol `BTCUSDT` appears nowhere in the warning. -/
theorem resync_warning_not_named_counterexample :
    stSyncedEx.forced "BTCUSDT" = true ∧
    (104 : Nat) ≠ stSyncedEx.last_update_id "BTCUSDT" ∧
    (_check_update_id stSyncedEx "BTCUSDT" ⟨some "depthUpdate", 105, 106, 104⟩).resyncs = 1 ∧
    (_check_update_id stSyncedEx "BTCUSDT" ⟨some "depthUpdate", 105, 106, 104⟩).warnings =
      [⟨"%s: Missing book update detected, resetting book", ["BINANCE_FUTURES"]⟩] ∧
    ∀ w ∈ (_check_update_id stSyncedEx "BTCUSDT" ⟨some "depthUpdate", 105, 106, 104⟩).warnings,
      "BTCUSDT" ∉ w.args := by
  decide

/-- C5 amended: a resync triggered by a sequence gap on one symbol leaves
every other symbol's `lastUpdateId`, synced flag, book validity and
open-interest cache unchanged, invalidates only the gapped symbol's book,
and emits one diagnostic warning naming the exchange identifier (not the
affected symbol). -/
theorem resync_frame_effect
    (st : BinanceFuturesState) (pair other : String) (msg : DiffMsg)
    (hf : st.forced pair = true)
    (hpu : msg.pu ≠ st.last_update_id pair)
    (hother : other ≠ pair) :
    (_check_update_id st pair msg).state.last_update_id other = st.last_update_id other ∧
    (_check_update_id st pair msg).state.forced other = st.forced other ∧
    (_check_update_id st pair msg).state.book_valid other = st.book_valid other ∧
    (_check_update_id st pair msg).state.open_interest other = st.open_interest other ∧
    (_check_update_id st pair msg).state.book_valid pair = false ∧
    (_check_update_id st pair msg).warnings = [missingUpdateWarning] ∧
    missingUpdateWarning.args = [BINANCE_FUTURES] := by
  simp [_check_update_id, _reset, hf, hpu.symm, hother, missingUpdateWarning]

/-- Witness for the amended C5: the gap diff C on `BTCUSDT`, observing
`ETHUSDT` as the unaffected other symbol. -/
theorem resync_frame_effect_witness :
    stSyncedEx.forced "BTCUSDT" = true ∧
    (104 : Nat) ≠ stSyncedEx.last_update_id "BTCUSDT" ∧
    "ETHUSDT" ≠ "BTCUSDT" ∧
    ((_check_update_id stSyncedEx "BTCUSDT" ⟨some "depthUpdate", 105, 106, 104⟩).state.last_update_id "ETHUSDT" = stSyncedEx.last_update_id "ETHUSDT" ∧
     (_check_update_id stSyncedEx "BTCUSDT" ⟨some "depthUpdate", 105, 106, 104⟩).state.forced "ETHUSDT" = stSyncedEx.forced "ETHUSDT" ∧
     (_check_update_id stSyncedEx "BTCUSDT" ⟨some "depthUpdate", 105, 106, 104⟩).state.book_valid "ETHUSDT" = stSyncedEx.book_valid "ETHUSDT" ∧
     (_check_update_id stSyncedEx "BTCUSDT" ⟨some "depthUpdate", 105, 106, 104⟩).state.open_interest "ETHUSDT" = stSyncedEx.open_interest "ETHUSDT" ∧
     (_check_update_id stSyncedEx "BTCUSDT" ⟨some "depthUpdate", 105, 106, 104⟩).state.book_valid "BTCUSDT" = false ∧
     (_check_update_id stSyncedEx "BTCUSDT" ⟨some "depthUpdate", 105, 106, 104⟩).warnings = [missingUpdateWarning] ∧
     missingUpdateWarning.args = [BINANCE_FUTURES]) :=
  ⟨by decide, by decide, by decide,
   resync_frame_effect stSyncedEx "BTCUSDT" "ETHUSDT"
     ⟨some "depthUpdate", 105, 106, 104⟩ (by decide) (by decide) (by decide)⟩

/-! ### Claim C6: the synced-state invariant -/

/-- Counterexample for C6 as stated: `_check_update_id` never validates
`pu < u`, so a (malformed) diff with `pu = lastUpdateId` but `u` below
`lastUpdateId` is accepted while Synced and strictly decreases
`lastUpdateId` — refuting both "monotonically non-decreasing" and
"strictly increases on every accepted diff". -/
theorem synced_monotone_counterexample :
    stSyncedEx.forced "BTCUSDT" = true ∧
    (_check_update_id stSyncedEx "BTCUSDT" ⟨some "depthUpdate", 80, 90, 103⟩).skip_update = false ∧
    (_check_update_id stSyncedEx "BTCUSDT" ⟨some "depthUpdate", 80, 90, 103⟩).state.forced "BTCUSDT" = true ∧
    (_check_update_id stSyncedEx "BTCUSDT" ⟨some "depthUpdate", 80, 90, 103⟩).state.last_update_id "BTCUSDT" <
      stSyncedEx.last_update_id "BTCUSDT" := by
  decide

/-- C6 amended: while a symbol is Synced, the synced flag is cleared only
by a resync, a skipped call leaves `lastUpdateId` unchanged, and — provided
the accepted diff's `finalUpdateId u` exceeds the current `lastUpdateId`,
as holds for well-formed exchange diffs whose sequence ids increase — an
accepted call strictly increases `lastUpdateId` and keeps the symbol
Synced. -/
theorem check_update_id_synced_invariant
    (st : BinanceFuturesState) (pair : String) (msg : DiffMsg)
    (hf : st.forced pair = true) :
    ((_check_update_id st pair msg).state.forced pair = false →
      (_check_update_id st pair msg).resyncs = 1) ∧
    ((_check_update_id st pair msg).skip_update = true →
      (_check_update_id st pair msg).state.last_update_id pair = st.last_update_id pair) ∧
    (st.last_update_id pair < msg.u →
      (_check_update_id st pair msg).skip_update = false →
      st.last_update_id pair < (_check_update_id st pair msg).state.last_update_id pair ∧
      (_check_update_id st pair msg).state.forced pair = true) := by
  by_cases hpu : st.last_update_id pair = msg.pu
  · simp [_check_update_id, hf, hpu]
  · simp [_check_update_id, _reset, hf, hpu]

/-- Witness for the amended C6: the continuity diff B on a Synced
`BTCUSDT`. -/
theorem check_update_id_synced_invariant_witness :
    stSyncedEx.forced "BTCUSDT" = true ∧
    (((_check_update_id stSyncedEx "BTCUSDT" ⟨some "depthUpdate", 104, 110, 103⟩).state.forced "BTCUSDT" = false →
      (_check_update_id stSyncedEx "BTCUSDT" ⟨some "depthUpdate", 104, 110, 103⟩).resyncs = 1) ∧
     ((_check_update_id stSyncedEx "BTCUSDT" ⟨some "depthUpdate", 104, 110, 103⟩).skip_update = true →
      (_check_update_id stSyncedEx "BTCUSDT" ⟨some "depthUpdate", 104, 110, 103⟩).state.last_update_id "BTCUSDT" = stSyncedEx.last_update_id "BTCUSDT") ∧
     (stSyncedEx.last_update_id "BTCUSDT" < 110 →
      (_check_update_id stSyncedEx "BTCUSDT" ⟨some "depthUpdate", 104, 110, 103⟩).skip_update = false →
      stSyncedEx.last_update_id "BTCUSDT" < (_check_update_id stSyncedEx "BTCUSDT" ⟨some "depthUpdate", 104, 110, 103⟩).state.last_update_id "BTCUSDT" ∧
      (_check_update_id stSyncedEx "BTCUSDT" ⟨some "depthUpdate", 104, 110, 103⟩).state.forced "BTCUSDT" = true)) :=
  ⟨by decide,
   check_update_id_synced_invariant stSyncedEx "BTCUSDT"
     ⟨some "depthUpdate", 104, 110, 103⟩ (by decide)⟩

/-! ### Claim C8: open-interest change deduplication -/

/-- A Synced one-symbol state whose open-interest cache already holds
`"10659.509"` for `BTCUSDT`. -/
def stOICached : BinanceFuturesState :=
  { last_update_id := fun _ => 0,
    forced := fun _ => false,
    book_valid := fun _ => true,
    open_interest := fun p => if p = "BTCUSDT" then some "10659.509" else none }

/-- C8: `_open_interest` emits iff the received value differs from the
cached value, caches the value exactly when it emits, leaves the state
untouched otherwise, and an immediate second poll of the same value never
emits — so two consecutive equal polls emit at most one event total. -/
theorem open_interest_dedup (st : BinanceFuturesState) (pair oi : String) :
    ((_open_interest st pair oi).emitted = true ↔ st.open_interest pair ≠ some oi) ∧
    ((_open_interest st pair oi).emitted = true →
      (_open_interest st pair oi).state.open_interest pair = some oi) ∧
    ((_open_interest st pair oi).emitted = false →
      (_open_interest st pair oi).state = st) ∧
    (_open_interest ((_open_interest st pair oi).state) pair oi).emitted = false := by
  by_cases h : st.open_interest pair = some oi
  · simp [_open_interest, h]
  · simp [_open_interest, h, Ne.symm h]

/-- Witness for C8: a changed value on a cold cache emits and is cached;
re-polling it does not emit. -/
theorem open_interest_dedup_witness :
    ((_open_interest stOICached "ETHUSDT" "42.5").emitted = true ↔
      stOICached.open_interest "ETHUSDT" ≠ some "42.5") ∧
    ((_open_interest stOICached "ETHUSDT" "42.5").emitted = true →
      (_open_interest stOICached "ETHUSDT" "42.5").state.open_interest "ETHUSDT" = some "42.5") ∧
    ((_open_interest stOICached "ETHUSDT" "42.5").emitted = false →
      (_open_interest stOICached "ETHUSDT" "42.5").state = stOICached) ∧
    (_open_interest ((_open_interest stOICached "ETHUSDT" "42.5").state) "ETHUSDT" "42.5").emitted = false :=
  open_interest_dedup stOICached "ETHUSDT" "42.5"

/-! ### Claims C7 and C10: dispatch by event-type tag -/

/-- The six event-type tags `message_handler` recognizes. -/
def recognizedTags : List String :=
  ["bookTicker", "depthUpdate", "aggTrade", "forceOrder", "markPriceUpdate", "kline"]

/-- C7: for a combined-stream envelope (a stream name containing `@`), a
`bookTicker`-tagged payload fires only the ticker normalizer with no
warning and no state change, and a payload carrying an unrecognized tag
fires no normalizer, logs exactly one diagnostic warning, and leaves the
whole state — in particular every symbol's book-sync fields — unchanged. -/
theorem message_handler_dispatch
    (st : BinanceFuturesState) (streamName : String) (data : DiffMsg)
    (hsplit : (split1 streamName '@').length = 2) :
    (data.e = some "bookTicker" →
      message_handler st (.stream streamName data) =
        .ok { handled := some .ticker, warnings := [], state := st }) ∧
    (∀ t, data.e = some t → t ∉ recognizedTags →
      message_handler st (.stream streamName data) =
        .ok { handled := none, warnings := [unexpectedWarning data], state := st }) := by
  match hs : split1 streamName '@' with
  | [] => rw [hs] at hsplit; simp at hsplit
  | [_] => rw [hs] at hsplit; simp at hsplit
  | p :: q :: rest =>
    constructor
    · intro he
      simp [message_handler, hs, dispatchStream, he]
    · intro t he hnot
      simp only [recognizedTags, List.mem_cons, List.not_mem_nil, or_false, not_or] at hnot
      obtain ⟨h1, h2, h3, h4, h5, h6⟩ := hnot
      simp [message_handler, hs, dispatchStream, he, h1, h2, h3, h4, h5, h6]

/-- Witness for C7: an envelope from stream `btcusdt@bookTicker` with a
`bookTicker` tag, and one with the unrecognized tag `depthSnapshot`. -/
theorem message_handler_dispatch_witness :
    (split1 "btcusdt@bookTicker" '@').length = 2 ∧
    (⟨some "bookTicker", 0, 0, 0⟩ : DiffMsg).e = some "bookTicker" ∧
    "depthSnapshot" ∉ recognizedTags ∧
    message_handler stSyncedEx (.stream "btcusdt@bookTicker" ⟨some "bookTicker", 0, 0, 0⟩) =
      .ok { handled := some .ticker, warnings := [], state := stSyncedEx } ∧
    message_handler stSyncedEx (.stream "btcusdt@bookTicker" ⟨some "depthSnapshot", 0, 0, 0⟩) =
      .ok { handled := none,
            warnings := [unexpectedWarning ⟨some "depthSnapshot", 0, 0, 0⟩],
            state := stSyncedEx } :=
  ⟨by decide, rfl, by decide,
   (message_handler_dispatch stSyncedEx "btcusdt@bookTicker"
      ⟨some "bookTicker", 0, 0, 0⟩ (by decide)).1 rfl,
   (message_handler_dispatch stSyncedEx "btcusdt@bookTicker"
      ⟨some "depthSnapshot", 0, 0, 0⟩ (by decide)).2 "depthSnapshot" rfl (by decide)⟩

/-- C10: for a combined-stream envelope whose payload lacks the `e` key,
`message_handler` reaches the `msg['e'] == 'kline'` re-index after
`msg.get('e')` returned `None` and raises a `KeyError` — a hard failure for
that message, invoking no normalizer and logging no warning. -/
theorem message_handler_missing_tag
    (st : BinanceFuturesState) (streamName : String) (data : DiffMsg)
    (hsplit : (split1 streamName '@').length = 2)
    (he : data.e = none) :
    message_handler st (.stream streamName data) = .error "KeyError: 'e'" := by
  match hs : split1 streamName '@' with
  | [] => rw [hs] at hsplit; simp at hsplit
  | [_] => rw [hs] at hsplit; simp at hsplit
  | p :: q :: rest => simp [message_handler, hs, dispatchStream, he]

/-- Witness for C10: an envelope from stream `btcusdt@depth` whose payload
carries update ids but no `e` field. -/
theorem message_handler_missing_tag_witness :
    (split1 "btcusdt@depth" '@').length = 2 ∧
    (⟨none, 95, 101, 0⟩ : DiffMsg).e = none ∧
    message_handler stUnsyncedEx (.stream "btcusdt@depth" ⟨none, 95, 101, 0⟩) =
      .error "KeyError: 'e'" :=
  ⟨by decide, rfl,
   message_handler_missing_tag stUnsyncedEx "btcusdt@depth"
     ⟨none, 95, 101, 0⟩ (by decide) rfl⟩

/-! ### Claim C9: the streaming-address builder -/

theorem joinAll_append (xs ys : List String) :
    joinAll (xs ++ ys) = joinAll xs ++ joinAll ys := by
  induction xs with
  | nil => simp [joinAll]
  | cons x xs ih => simp [joinAll, ih, String.append_assoc]

theorem foldl_stream_append (chan : String) (pairs : List String) (acc : String) :
    pairs.foldl (fun b p => b ++ stream_name chan p) acc
      = acc ++ joinAll (pairs.map (stream_name chan)) := by
  induction pairs generalizing acc with
  | nil => simp [joinAll]
  | cons p ps ih => simp [joinAll, ih, String.append_assoc]

theorem addressFold_cons (cs : String × List String)
    (rest : List (String × List String)) (acc : String) :
    addressFold (cs :: rest) acc =
      addressFold rest
        (if cs.1 = OPEN_INTEREST then acc
         else cs.2.foldl (fun b p => b ++ stream_name cs.1 p) acc) := rfl

theorem streamList_cons (cs : String × List String)
    (rest : List (String × List String)) :
    streamList (cs :: rest) =
      (if cs.1 = OPEN_INTEREST then [] else cs.2.map (stream_name cs.1)) ++
        streamList rest := by
  by_cases h : cs.1 = OPEN_INTEREST <;> simp [streamList, List.filter_cons, h]

theorem addressFold_eq (entries : List (String × List String)) (acc : String) :
    addressFold entries acc = acc ++ joinAll (streamList entries) := by
  induction entries generalizing acc with
  | nil => simp [addressFold, streamList, joinAll]
  | cons cs rest ih =>
    rw [addressFold_cons, streamList_cons]
    by_cases h : cs.1 = OPEN_INTEREST
    · simp [h, ih]
    · simp [h, ih, foldl_stream_append, joinAll_append, String.append_assoc]

theorem string_append_right_empty (a b : String) : a ++ b = a ↔ b = "" := by
  constructor
  · intro h
    have hl := congrArg String.length h
    rw [String.length_append] at hl
    have hb : b.length = 0 := by omega
    cases b with
    | mk d =>
      cases d with
      | nil => rfl
      | cons c cs => simp [String.length] at hb
  · intro h
    subst h
    simp

theorem stream_name_ne_empty (chan pair : String) : stream_name chan pair ≠ "" := by
  intro h
  have hl := congrArg String.length h
  unfold stream_name at hl
  have h0 : ("" : String).length = 0 := rfl
  have h1 : ("@bookTicker/" : String).length = 12 := rfl
  have h2 : ("@" : String).length = 1 := rfl
  have h3 : ("/" : String).length = 1 := rfl
  split at hl
  · rw [String.length_append, h0, h1] at hl
    omega
  · rw [String.length_append, String.length_append, String.length_append,
      h0, h2, h3] at hl
    omega

theorem streamList_mem (entries : List (String × List String)) (s : String)
    (hs : s ∈ streamList entries) :
    ∃ cs ∈ entries, ∃ p ∈ cs.2, cs.1 ≠ OPEN_INTEREST ∧ s = stream_name cs.1 p := by
  simp only [streamList, List.mem_flatMap, List.mem_filter, List.mem_map] at hs
  obtain ⟨cs, ⟨hmem, hne⟩, p, hp, rfl⟩ := hs
  exact ⟨cs, hmem, p, hp, by simpa using hne, rfl⟩

theorem joinAll_eq_empty_iff (xs : List String) (hne : ∀ s ∈ xs, s ≠ "") :
    joinAll xs = "" ↔ xs = [] := by
  cases xs with
  | nil => simp [joinAll]
  | cons x rest =>
    simp only [joinAll, List.cons_ne_nil, iff_false]
    intro h
    have hl := congrArg String.length h
    rw [String.length_append] at hl
    have hx : x.length = 0 := by
      have h0 : ("" : String).length = 0 := rfl
      omega
    apply hne x (List.mem_cons_self x rest)
    cases x with
    | mk d =>
      cases d with
      | nil => rfl
      | cons c cs => simp [String.length] at hx

theorem addressOf_eq_none_iff (entries : List (String × List String)) :
    _addressOf entries = none ↔ streamList entries = [] := by
  simp only [_addressOf]
  rw [addressFold_eq]
  by_cases h : streamList entries = []
  · simp [h, joinAll]
  · have hjoin : joinAll (streamList entries) ≠ "" := by
      intro hj
      apply h
      refine (joinAll_eq_empty_iff _ ?_).mp hj
      intro s hsmem
      obtain ⟨cs, -, p, -, -, rfl⟩ := streamList_mem entries s hsmem
      exact stream_name_ne_empty _ _
    have hbase : ¬ (ws_endpoint ++ "/stream?streams=" ++ joinAll (streamList entries)
        = ws_endpoint ++ "/stream?streams=") := by
      intro hb
      exact hjoin ((string_append_right_empty _ _).mp hb)
    simp [hbase, h]

theorem streamList_filter (entries : List (String × List String)) :
    streamList (entries.filter (fun cs => !(cs.1 == OPEN_INTEREST))) =
      streamList entries := by
  simp [streamList, List.filter_filter]

/-- C9: the open-interest channel never contributes to the composed
streaming address (dropping all open-interest entries leaves the address
unchanged); the ticker channel maps to the `<symbol>@bookTicker` stream
name and every other channel to `<symbol>@<channelName>`, the symbol
lower-cased; and the builder returns `none` ("no connection needed")
exactly when no streamable channel contributes a stream. -/
theorem address_builder_properties :
    (∀ entries : List (String × List String),
      _addressOf (entries.filter (fun cs => !(cs.1 == OPEN_INTEREST))) =
        _addressOf entries) ∧
    (∀ pair, stream_name TICKER pair = pair.toLower ++ "@bookTicker/") ∧
    (∀ chan pair, chan ≠ TICKER →
      stream_name chan pair = pair.toLower ++ "@" ++ chan ++ "/") ∧
    (∀ channels symbols subscription,
      _address channels symbols subscription = none ↔
        streamList (addressEntries channels symbols subscription) = []) := by
  refine ⟨?_, ?_, ?_, ?_⟩
  · intro entries
    simp only [_addressOf]
    rw [addressFold_eq, addressFold_eq, streamList_filter]
  · intro pair
    simp [stream_name]
  · intro chan pair h
    simp [stream_name, h]
  · intro channels symbols subscription
    exact addressOf_eq_none_iff _

/-- Witness for C9: a subscription holding one open-interest entry and one
ticker entry; dropping the open-interest entry leaves the address
unchanged; the ticker and trade stream names; and an open-interest-only
configuration yields no streaming connection. -/
theorem address_builder_properties_witness :
    (_addressOf ([(OPEN_INTEREST, ["BTCUSDT"]), (TICKER, ["BTCUSDT"])].filter
        (fun cs => !(cs.1 == OPEN_INTEREST))) =
      _addressOf [(OPEN_INTEREST, ["BTCUSDT"]), (TICKER, ["BTCUSDT"])]) ∧
    stream_name TICKER "BTCUSDT" = "BTCUSDT".toLower ++ "@bookTicker/" ∧
    ("trade" ≠ TICKER ∧
      stream_name "trade" "BTCUSDT" = "BTCUSDT".toLower ++ "@" ++ "trade" ++ "/") ∧
    (_address [OPEN_INTEREST] ["BTCUSDT"] none = none ↔
      streamList (addressEntries [OPEN_INTEREST] ["BTCUSDT"] none) = []) :=
  ⟨address_builder_properties.1 [(OPEN_INTEREST, ["BTCUSDT"]), (TICKER, ["BTCUSDT"])],
   address_builder_properties.2.1 "BTCUSDT",
   ⟨by decide, address_builder_properties.2.2.1 "trade" "BTCUSDT" (by decide)⟩,
   address_builder_properties.2.2.2 [OPEN_INTEREST] ["BTCUSDT"] none⟩
